import Mathlib

/-!
Verification of `tf_agents/networks/actor_distribution_network.py`.

The file embeds the construction and forward-pass logic of
`ActorDistributionNetwork` shallowly: nested structures of specs/tensors
become a rose-tree type `Nest`, tensors are tracked at the level of shape
and dtype, the constructor becomes an `Except`-valued function and the
forward call an `Option`-valued function (Python exceptions become the
error/none branches).  External collaborators that the file calls but that
live outside the sources at hand (`tf.contrib.framework.nest`,
`tf_agents.networks.utils`, `tf_agents.utils.nest_utils`) are modelled
from the specification's description of them; each such definition is
marked in its doc comment.
-/

/-! ## Nested structures (`tf.contrib.framework.nest`)

Python nests are arbitrarily nested containers of leaves.  We model them
as rose trees via a mutual inductive, with `flatten` producing the leaves
in left-to-right order and `pack` re-assembling a flat list into the shape
of a template nest (TensorFlow's `pack_sequence_as`). -/

mutual

inductive Nest (α : Type) where
  | leaf : α → Nest α
  | node : NestList α → Nest α

inductive NestList (α : Type) where
  | nil : NestList α
  | cons : Nest α → NestList α → NestList α

end

mutual

/-- Leaves of a nest, in left-to-right order (TensorFlow `nest.flatten`). -/
def Nest.flatten {α : Type} : Nest α → List α
  | .leaf a => [a]
  | .node ns => NestList.flatten ns

def NestList.flatten {α : Type} : NestList α → List α
  | .nil => []
  | .cons n ns => n.flatten ++ NestList.flatten ns

end

mutual

/-- Map a function over every leaf of a nest, keeping the structure. -/
def Nest.map {α β : Type} (f : α → β) : Nest α → Nest β
  | .leaf a => .leaf (f a)
  | .node ns => .node (NestList.map f ns)

def NestList.map {α β : Type} (f : α → β) : NestList α → NestList β
  | .nil => .nil
  | .cons n ns => .cons (Nest.map f n) (NestList.map f ns)

end

mutual

/-- Consume a flat list of values against a template nest, rebuilding the
template's structure with the consumed values as leaves and returning the
unconsumed remainder; `none` when the list runs out of values. -/
def Nest.pack {α β : Type} : Nest α → List β → Option (Nest β × List β)
  | .leaf _, [] => none
  | .leaf _, b :: bs => some (.leaf b, bs)
  | .node ts, bs =>
      match NestList.pack ts bs with
      | none => none
      | some (ns, rest) => some (.node ns, rest)

def NestList.pack {α β : Type} : NestList α → List β → Option (NestList β × List β)
  | .nil, bs => some (.nil, bs)
  | .cons t ts, bs =>
      match Nest.pack t bs with
      | none => none
      | some (n, bs1) =>
          match NestList.pack ts bs1 with
          | none => none
          | some (ns, bs2) => some (.cons n ns, bs2)

end

/-- TensorFlow `nest.pack_sequence_as`: re-nest a flat list into the
structure of the template (`none` when the leaf counts disagree). -/
def pack_sequence_as {α β : Type} (template : Nest α) (xs : List β) : Option (Nest β) :=
  match Nest.pack template xs with
  | some (n, []) => some n
  | _ => none

mutual

theorem Nest.pack_flatten_map {α β : Type} (t : Nest α) (f : α → β) (rest : List β) :
    Nest.pack t (t.flatten.map f ++ rest) = some (t.map f, rest) := by
  cases t with
  | leaf a => simp [Nest.flatten, Nest.map, Nest.pack]
  | node ns =>
      simp [Nest.flatten, Nest.map, Nest.pack, NestList.packList_flatten_map ns f rest]

theorem NestList.packList_flatten_map {α β : Type} (ts : NestList α) (f : α → β) (rest : List β) :
    NestList.pack ts (ts.flatten.map f ++ rest) = some (ts.map f, rest) := by
  cases ts with
  | nil => simp [NestList.flatten, NestList.map, NestList.pack]
  | cons t ts =>
      have h1 := Nest.pack_flatten_map t f (ts.flatten.map f ++ rest)
      have h2 := NestList.packList_flatten_map ts f rest
      simp [NestList.flatten, NestList.map, NestList.pack, List.map_append,
        List.append_assoc, h1, h2]

end

/-- Packing the mapped leaves of a nest rebuilds the mapped nest. -/
theorem pack_sequence_as_flatten_map {α β : Type} (t : Nest α) (f : α → β) :
    pack_sequence_as t (t.flatten.map f) = some (t.map f) := by
  have h := Nest.pack_flatten_map t f []
  simp only [List.append_nil] at h
  simp [pack_sequence_as, h]

mutual

theorem Nest.map_map {α β γ : Type} (f : α → β) (g : β → γ) (t : Nest α) :
    Nest.map g (Nest.map f t) = Nest.map (fun a => g (f a)) t := by
  cases t with
  | leaf a => simp [Nest.map]
  | node ns => simp [Nest.map, NestList.mapList_map f g ns]

theorem NestList.mapList_map {α β γ : Type} (f : α → β) (g : β → γ) (ts : NestList α) :
    NestList.map g (NestList.map f ts) = NestList.map (fun a => g (f a)) ts := by
  cases ts with
  | nil => simp [NestList.map]
  | cons t ts => simp [NestList.map, Nest.map_map f g t, NestList.mapList_map f g ts]

end

/-! ## Tensors and specs

Tensors are tracked at the level of shape and dtype; per-call numeric data
is irrelevant to every property stated here. -/

inductive DType where
  | int32
  | int64
  | float32
  | float64
  deriving DecidableEq, Repr

/-- Discreteness of a spec in tf_agents is whether its dtype is an integer
dtype. -/
def DType.is_integer : DType → Bool
  | .int32 => true
  | .int64 => true
  | .float32 => false
  | .float64 => false

/-- `tensor_spec.TensorSpec`: shape/dtype description of one tensor. -/
structure TensorSpec where
  shape : List Nat
  dtype : DType
  deriving DecidableEq, Repr

/-- `tensor_spec.BoundedTensorSpec`: an action-leaf spec with bounds. -/
structure BoundedTensorSpec where
  shape : List Nat
  dtype : DType
  minimum : Int
  maximum : Int
  deriving DecidableEq, Repr

def BoundedTensorSpec.is_discrete (s : BoundedTensorSpec) : Bool :=
  s.dtype.is_integer

structure Tensor where
  shape : List Nat
  dtype : DType
  deriving DecidableEq, Repr

/-- `tf.cast`: changes the dtype, keeps the shape. -/
def Tensor.cast (t : Tensor) (d : DType) : Tensor :=
  { t with dtype := d }

/-- Specification of the distribution a projection network emits; the
network file treats it opaquely, so one field suffices. -/
structure DistributionSpec where
  sample_spec : BoundedTensorSpec
  deriving DecidableEq, Repr

/-- A distribution object as returned by a projection network at call
time; the network file treats it opaquely. -/
structure Distribution where
  batch_shape : List Nat
  deriving DecidableEq, Repr

/-- A projection sub-network: its declared `output_spec` plus its forward
function taking the hidden features and the outer rank. -/
structure ProjectionNetwork where
  output_spec : DistributionSpec
  call : Tensor → Nat → Distribution

/-! ## Modelled collaborators -/

/-- Modelled from the spec: `utils.BatchSquash` (tf_agents/networks/utils.py
is not among the sources).  "Collapses all leading (outer-rank) dimensions
into a single batch dimension ... paired with an inverse restore step."
`flatten` records the collapsed leading dimensions so `unflatten` can
restore them. -/
structure BatchSquash where
  outer_rank : Nat
  saved_dims : List Nat

def BatchSquash.mk' (outer_rank : Nat) : BatchSquash :=
  ⟨outer_rank, []⟩

def BatchSquash.flatten (bs : BatchSquash) (t : Tensor) : BatchSquash × Tensor :=
  (⟨bs.outer_rank, t.shape.take bs.outer_rank⟩,
   { t with shape := (t.shape.take bs.outer_rank).prod :: t.shape.drop bs.outer_rank })

def BatchSquash.unflatten (bs : BatchSquash) (t : Tensor) : Tensor :=
  { t with shape := bs.saved_dims ++ t.shape.drop 1 }

/-- Modelled from the spec: `nest_utils.get_outer_rank`
(tf_agents/utils/nest_utils.py is not among the sources).  "Determines the
outer rank (number of leading non-feature dimensions) by comparing the
observation's shape against the declared observation specification"; with
no observation there is nothing to compare and the call fails. -/
def get_outer_rank (observations : Nest Tensor) (spec : Nest TensorSpec) : Option Nat := do
  let t ← observations.flatten.head?
  let s ← spec.flatten.head?
  some (t.shape.length - s.shape.length)

/-- Modelled from the spec: a convolution layer from `utils.mlp_layers`
parameterized by (filters, kernel_size, stride); only the feature
dimension (set to `filters`) is tracked by this embedding. -/
def convLayer (p : Nat × Nat × Nat) (t : Tensor) : Tensor :=
  { t with shape := t.shape.dropLast ++ [p.1] }

/-- Modelled from the spec: a fully-connected (Dense) layer from
`utils.mlp_layers` with the given number of units maps `[..., k]` to
`[..., units]`. -/
def denseLayer (units : Nat) (t : Tensor) : Tensor :=
  { t with shape := t.shape.dropLast ++ [units] }

/-- Modelled from the spec: `utils.mlp_layers`
(tf_agents/networks/utils.py is not among the sources): "optional
convolutions followed by fully-connected layers", in that order. -/
def utils.mlp_layers (conv_layer_params : List (Nat × Nat × Nat)) (fc_layer_params : List Nat) :
    List (Tensor → Tensor) :=
  conv_layer_params.map convLayer ++ fc_layer_params.map denseLayer

/-! ## ActorDistributionNetwork -/

structure ActorDistributionNetwork where
  observation_spec : Nest TensorSpec
  action_spec : Nest BoundedTensorSpec
  mlp_layers : List (Tensor → Tensor)
  projection_networks : List ProjectionNetwork
  state_spec : Nest TensorSpec
  output_spec : Nest DistributionSpec

instance : Inhabited ActorDistributionNetwork :=
  ⟨{ observation_spec := .node .nil
     action_spec := .node .nil
     mlp_layers := []
     projection_networks := []
     state_spec := .node .nil
     output_spec := .node .nil }⟩

/-- `ActorDistributionNetwork.__init__`: validates the observation spec,
builds the feature stack, selects one projection network per action leaf
(discrete factory for discrete leaves, continuous factory otherwise),
computes the output spec by re-nesting the per-leaf output specs, and
passes the empty tuple as the state spec. -/
def ActorDistributionNetwork.init (observation_spec : Nest TensorSpec)
    (action_spec : Nest BoundedTensorSpec)
    (fc_layer_params : List Nat) (conv_layer_params : List (Nat × Nat × Nat))
    (discrete_projection_net continuous_projection_net : BoundedTensorSpec → ProjectionNetwork) :
    Except String ActorDistributionNetwork :=
  if (Nest.flatten observation_spec).length > 1 then
    .error "Only a single observation is supported by this network"
  else
    let layers := utils.mlp_layers conv_layer_params fc_layer_params
    let projection_networks := (Nest.flatten action_spec).map (fun single_output_spec =>
      if single_output_spec.is_discrete then
        discrete_projection_net single_output_spec
      else
        continuous_projection_net single_output_spec)
    let projection_distribution_specs := projection_networks.map (fun p => p.output_spec)
    match pack_sequence_as action_spec projection_distribution_specs with
    | none => .error "pack_sequence_as: leaf count mismatch"
    | some output_spec =>
        .ok { observation_spec := observation_spec
              action_spec := action_spec
              mlp_layers := layers
              projection_networks := projection_networks
              state_spec := .node .nil
              output_spec := output_spec }

/-- The feature-extraction part of `ActorDistributionNetwork.call`: cast
the single observation tensor to float32, batch-squash it, run the layer
stack in order, and restore the leading dimensions. -/
def ActorDistributionNetwork.hiddenFeatures (net : ActorDistributionNetwork)
    (obs0 : Tensor) (outer_rank : Nat) : Tensor :=
  let states := obs0.cast .float32
  let bs := BatchSquash.mk' outer_rank
  let p := bs.flatten states
  let states := net.mlp_layers.foldl (fun s layer => layer s) p.2
  p.1.unflatten states

/-- `ActorDistributionNetwork.call`: ignores `step_type`, computes the
outer rank, extracts the single observation tensor, produces the hidden
features, applies every projection network to them, re-nests the per-leaf
distributions as the action spec, and returns the incoming state
unchanged.  Failures of the underlying framework (no observation to
index) are the `none` branch. -/
def ActorDistributionNetwork.call {τ σ : Type} (net : ActorDistributionNetwork)
    (observations : Nest Tensor) (step_type : τ) (network_state : σ) :
    Option (Nest Distribution × σ) := do
  let _ := step_type
  let outer_rank ← get_outer_rank observations net.observation_spec
  let obs0 ← (Nest.flatten observations).head?
  let states := net.hiddenFeatures obs0 outer_rank
  let outputs := net.projection_networks.map (fun projection => projection.call states outer_rank)
  let packed ← pack_sequence_as net.action_spec outputs
  some (packed, network_state)

/-! ## Helper lemmas about construction -/

theorem ActorDistributionNetwork.init_error (observation_spec : Nest TensorSpec)
    (action_spec : Nest BoundedTensorSpec) (fc : List Nat) (conv : List (Nat × Nat × Nat))
    (dnet cnet : BoundedTensorSpec → ProjectionNetwork)
    (h : (Nest.flatten observation_spec).length > 1) :
    ActorDistributionNetwork.init observation_spec action_spec fc conv dnet cnet
      = Except.error "Only a single observation is supported by this network" := by
  unfold ActorDistributionNetwork.init
  rw [if_pos h]

theorem ActorDistributionNetwork.init_eq (observation_spec : Nest TensorSpec)
    (action_spec : Nest BoundedTensorSpec) (fc : List Nat) (conv : List (Nat × Nat × Nat))
    (dnet cnet : BoundedTensorSpec → ProjectionNetwork)
    (h : ¬ (Nest.flatten observation_spec).length > 1) :
    ActorDistributionNetwork.init observation_spec action_spec fc conv dnet cnet
      = Except.ok
          { observation_spec := observation_spec
            action_spec := action_spec
            mlp_layers := utils.mlp_layers conv fc
            projection_networks := (Nest.flatten action_spec).map (fun s =>
              if s.is_discrete then dnet s else cnet s)
            state_spec := .node .nil
            output_spec := Nest.map (fun s =>
              (if s.is_discrete then dnet s else cnet s).output_spec) action_spec } := by
  have hpack : pack_sequence_as action_spec
      (((Nest.flatten action_spec).map (fun s =>
          if s.is_discrete then dnet s else cnet s)).map (fun p => p.output_spec))
      = some (Nest.map (fun s =>
          (if s.is_discrete then dnet s else cnet s).output_spec) action_spec) := by
    rw [List.map_map]
    exact pack_sequence_as_flatten_map action_spec _
  unfold ActorDistributionNetwork.init
  rw [if_neg h]
  simp only [hpack]

/-! ## Sample data used by the witnesses -/

def obsLeafSpec : TensorSpec := ⟨[3], .float32⟩

def sampleObsSpec : Nest TensorSpec := .leaf obsLeafSpec

def twoObsSpec : Nest TensorSpec :=
  .node (.cons (.leaf obsLeafSpec) (.cons (.leaf ⟨[2], .float32⟩) .nil))

def discreteLeaf : BoundedTensorSpec := ⟨[], .int32, 0, 4⟩

def continuousLeaf : BoundedTensorSpec := ⟨[2], .float32, -1, 1⟩

/-- A nested, mixed (discrete and continuous) action specification. -/
def sampleActionSpec : Nest BoundedTensorSpec :=
  .node (.cons (.leaf discreteLeaf)
        (.cons (.node (.cons (.leaf continuousLeaf) .nil)) .nil))

/-- A concrete discrete-projection factory for the witnesses. -/
def sdnet : BoundedTensorSpec → ProjectionNetwork := fun s =>
  { output_spec := ⟨s⟩
    call := fun t r => ⟨t.shape.take r⟩ }

/-- A concrete continuous-projection factory for the witnesses,
distinguishable from `sdnet` through its output spec. -/
def scnet : BoundedTensorSpec → ProjectionNetwork := fun s =>
  { output_spec := ⟨{ s with minimum := s.minimum - 1 }⟩
    call := fun t r => ⟨t.shape.take r⟩ }

def sampleNet : ActorDistributionNetwork :=
  match ActorDistributionNetwork.init sampleObsSpec sampleActionSpec [5] [] sdnet scnet with
  | .ok net => net
  | .error _ => default

def sampleObs : Nest Tensor := .leaf ⟨[4, 3], .float32⟩

def sampleDists : Nest Distribution :=
  match sampleNet.call sampleObs (0 : Nat) () with
  | some (d, _) => d
  | none => .node .nil

/-! ## Claims -/

/-- C1: Construction of `ActorDistributionNetwork` fails with the
validation error whenever the flattened observation specification
contains more than one observation: for every observation specification
whose flattened count is greater than one, `init` returns the error
before building any layers. -/
theorem c1_multi_observation_rejected (observation_spec : Nest TensorSpec)
    (action_spec : Nest BoundedTensorSpec) (fc : List Nat) (conv : List (Nat × Nat × Nat))
    (dnet cnet : BoundedTensorSpec → ProjectionNetwork)
    (h : (Nest.flatten observation_spec).length > 1) :
    ActorDistributionNetwork.init observation_spec action_spec fc conv dnet cnet
      = Except.error "Only a single observation is supported by this network" :=
  ActorDistributionNetwork.init_error observation_spec action_spec fc conv dnet cnet h

theorem c1_witness :
    (Nest.flatten twoObsSpec).length > 1
      ∧ ActorDistributionNetwork.init twoObsSpec sampleActionSpec [5] [] sdnet scnet
          = Except.error "Only a single observation is supported by this network" :=
  ⟨by decide, c1_multi_observation_rejected twoObsSpec sampleActionSpec [5] [] sdnet scnet
    (by decide)⟩

/-- C2: for every leaf of the flattened action specification, construction
selects the discrete-projection factory if that leaf is discrete and the
continuous-projection factory otherwise, invoking the factory on exactly
that leaf's specification; the projection-network list has one entry per
leaf in the order of the flattened action specification. -/
theorem c2_projection_selection (observation_spec : Nest TensorSpec)
    (action_spec : Nest BoundedTensorSpec) (fc : List Nat) (conv : List (Nat × Nat × Nat))
    (dnet cnet : BoundedTensorSpec → ProjectionNetwork) (net : ActorDistributionNetwork)
    (h : ActorDistributionNetwork.init observation_spec action_spec fc conv dnet cnet
      = Except.ok net) :
    net.projection_networks
      = (Nest.flatten action_spec).map (fun s =>
          if s.is_discrete then dnet s else cnet s) := by
  by_cases hlen : (Nest.flatten observation_spec).length > 1
  · rw [ActorDistributionNetwork.init_error observation_spec action_spec fc conv dnet cnet hlen]
      at h
    exact absurd h (by simp)
  · rw [ActorDistributionNetwork.init_eq observation_spec action_spec fc conv dnet cnet hlen]
      at h
    injection h with h
    subst h
    rfl

theorem c2_witness :
    sampleNet.projection_networks
      = (Nest.flatten sampleActionSpec).map (fun s =>
          if s.is_discrete then sdnet s else scnet s) :=
  c2_projection_selection sampleObsSpec sampleActionSpec [5] [] sdnet scnet sampleNet rfl

/-- C3: at construction, the output specification equals the per-leaf
output specifications of the projection sub-networks, in flattened-leaf
order, re-nested into the original structure of the action specification
via `pack_sequence_as`; equivalently it is the action specification with
each leaf replaced by its projection network's output spec. -/
theorem c3_output_spec_packed (observation_spec : Nest TensorSpec)
    (action_spec : Nest BoundedTensorSpec) (fc : List Nat) (conv : List (Nat × Nat × Nat))
    (dnet cnet : BoundedTensorSpec → ProjectionNetwork) (net : ActorDistributionNetwork)
    (h : ActorDistributionNetwork.init observation_spec action_spec fc conv dnet cnet
      = Except.ok net) :
    pack_sequence_as action_spec (net.projection_networks.map (fun p => p.output_spec))
        = some net.output_spec
      ∧ net.output_spec
        = Nest.map (fun s => (if s.is_discrete then dnet s else cnet s).output_spec)
            action_spec := by
  by_cases hlen : (Nest.flatten observation_spec).length > 1
  · rw [ActorDistributionNetwork.init_error observation_spec action_spec fc conv dnet cnet hlen]
      at h
    exact absurd h (by simp)
  · rw [ActorDistributionNetwork.init_eq observation_spec action_spec fc conv dnet cnet hlen]
      at h
    injection h with h
    subst h
    refine ⟨?_, rfl⟩
    show pack_sequence_as action_spec
        (((Nest.flatten action_spec).map (fun s =>
            if s.is_discrete then dnet s else cnet s)).map (fun p => p.output_spec))
      = _
    rw [List.map_map]
    exact pack_sequence_as_flatten_map action_spec _

theorem c3_witness :
    pack_sequence_as sampleActionSpec
        (sampleNet.projection_networks.map (fun p => p.output_spec))
        = some sampleNet.output_spec
      ∧ sampleNet.output_spec
        = Nest.map (fun s => (if s.is_discrete then sdnet s else scnet s).output_spec)
            sampleActionSpec :=
  c3_output_spec_packed sampleObsSpec sampleActionSpec [5] [] sdnet scnet sampleNet rfl

/-- C4: for every forward call that returns, the second component of the
result is exactly the incoming `network_state`, unchanged. -/
theorem c4_state_passthrough {τ σ : Type} (net : ActorDistributionNetwork)
    (obs : Nest Tensor) (st : τ) (ns : σ) (d : Nest Distribution) (ns' : σ)
    (h : net.call obs st ns = some (d, ns')) : ns' = ns := by
  cases hg : get_outer_rank obs net.observation_spec with
  | none => simp [ActorDistributionNetwork.call, hg] at h
  | some r =>
    cases ho : (Nest.flatten obs).head? with
    | none => simp [ActorDistributionNetwork.call, hg, ho] at h
    | some obs0 =>
      cases hp : pack_sequence_as net.action_spec
          (net.projection_networks.map (fun projection =>
            projection.call (net.hiddenFeatures obs0 r) r)) with
      | none => simp [ActorDistributionNetwork.call, hg, ho, hp] at h
      | some packed =>
        simp [ActorDistributionNetwork.call, hg, ho, hp] at h
        exact h.2.symm

theorem c4_witness :
    sampleNet.call sampleObs (0 : Nat) (42 : Nat) = some (sampleDists, 42)
      ∧ (42 : Nat) = 42 :=
  ⟨rfl, c4_state_passthrough sampleNet sampleObs (0 : Nat) (42 : Nat) sampleDists 42 rfl⟩

/-- C5: for an observation tensor with two leading dimensions `[B, T]`
beyond the per-example shape, the batch-squash applied before the feature
layers composed with the unsquash applied after them is a round trip: the
hidden-feature tensor handed to the projection networks has the leading
dimensions `B` and `T` restored, whatever the layer stack does.  The
second conjunct states the pure squash/unsquash round trip. -/
theorem c5_batch_squash_round_trip (net : ActorDistributionNetwork) (obs0 : Tensor)
    (B T : Nat) (rest : List Nat) (h : obs0.shape = B :: T :: rest) :
    (net.hiddenFeatures obs0 2).shape.take 2 = [B, T]
      ∧ (((BatchSquash.mk' 2).flatten (obs0.cast .float32)).1.unflatten
          (((BatchSquash.mk' 2).flatten (obs0.cast .float32)).2))
        = obs0.cast .float32 := by
  constructor
  · simp [ActorDistributionNetwork.hiddenFeatures, BatchSquash.mk', BatchSquash.flatten,
      BatchSquash.unflatten, Tensor.cast, h]
  · simp [BatchSquash.mk', BatchSquash.flatten, BatchSquash.unflatten, Tensor.cast, h]

theorem c5_witness :
    (Tensor.shape ⟨[4, 7, 3], .float32⟩ = 4 :: 7 :: [3])
      ∧ (sampleNet.hiddenFeatures ⟨[4, 7, 3], .float32⟩ 2).shape.take 2 = [4, 7]
      ∧ (((BatchSquash.mk' 2).flatten (Tensor.cast ⟨[4, 7, 3], .float32⟩ .float32)).1.unflatten
          (((BatchSquash.mk' 2).flatten (Tensor.cast ⟨[4, 7, 3], .float32⟩ .float32)).2))
        = Tensor.cast ⟨[4, 7, 3], .float32⟩ .float32 :=
  ⟨rfl, c5_batch_squash_round_trip sampleNet ⟨[4, 7, 3], .float32⟩ 4 7 [3] rfl⟩


/-- C6: for every forward call of a constructed network that returns, the
first returned component is the list of per-leaf distributions — one per
projection sub-network, applied to the restored hidden features in
flattened-leaf order — repackaged into the nested structure of the action
specification, mirroring it leaf-for-leaf; this covers mixed action specs
with discrete and continuous leaves. -/
theorem c6_repackaged_structure {τ σ : Type} (observation_spec : Nest TensorSpec)
    (action_spec : Nest BoundedTensorSpec) (fc : List Nat) (conv : List (Nat × Nat × Nat))
    (dnet cnet : BoundedTensorSpec → ProjectionNetwork) (net : ActorDistributionNetwork)
    (obs : Nest Tensor) (st : τ) (ns : σ) (dists : Nest Distribution) (ns' : σ)
    (hinit : ActorDistributionNetwork.init observation_spec action_spec fc conv dnet cnet
      = Except.ok net)
    (hcall : net.call obs st ns = some (dists, ns')) :
    (∀ r ∈ get_outer_rank obs net.observation_spec,
      ∀ obs0 ∈ (Nest.flatten obs).head?,
        dists = Nest.map (fun s =>
          (if s.is_discrete then dnet s else cnet s).call (net.hiddenFeatures obs0 r) r)
          action_spec)
      ∧ Nest.map (fun _ => ()) dists = Nest.map (fun _ => ()) action_spec := by
  by_cases hlen : (Nest.flatten observation_spec).length > 1
  · rw [ActorDistributionNetwork.init_error observation_spec action_spec fc conv dnet cnet hlen]
      at hinit
    exact absurd hinit (by simp)
  · rw [ActorDistributionNetwork.init_eq observation_spec action_spec fc conv dnet cnet hlen]
      at hinit
    injection hinit with hinit
    subst hinit
    cases hg : get_outer_rank obs observation_spec with
    | none => simp [ActorDistributionNetwork.call, hg] at hcall
    | some r =>
      cases ho : (Nest.flatten obs).head? with
      | none => simp [ActorDistributionNetwork.call, hg, ho] at hcall
      | some obs0 =>
        simp [ActorDistributionNetwork.call, hg, ho, List.map_map] at hcall
        rw [pack_sequence_as_flatten_map] at hcall
        simp at hcall
        obtain ⟨hdists, -⟩ := hcall
        constructor
        · intro r' hr' obs0' hobs0'
          simp only [Option.mem_def, Option.some.injEq] at hr' hobs0'
          subst hr'
          subst hobs0'
          exact hdists.symm
        · rw [← hdists, Nest.map_map]

theorem c6_witness :
    sampleNet.call sampleObs (0 : Nat) () = some (sampleDists, ())
      ∧ ((∀ r ∈ get_outer_rank sampleObs sampleNet.observation_spec,
          ∀ obs0 ∈ (Nest.flatten sampleObs).head?,
            sampleDists = Nest.map (fun s =>
              (if s.is_discrete then sdnet s else scnet s).call
                (sampleNet.hiddenFeatures obs0 r) r) sampleActionSpec)
        ∧ Nest.map (fun _ => ()) sampleDists = Nest.map (fun _ => ()) sampleActionSpec) :=
  ⟨rfl, c6_repackaged_structure sampleObsSpec sampleActionSpec [5] [] sdnet scnet sampleNet
    sampleObs (0 : Nat) () sampleDists () rfl rfl⟩

/-- C7: the step-type argument has no influence on the forward call's
result: any two invocations of `call` that agree on observations and
network state but differ in step type (even in its type) return the same
value, distributions and state alike. -/
theorem c7_step_type_noninterference {τ₁ τ₂ σ : Type} (net : ActorDistributionNetwork)
    (obs : Nest Tensor) (st1 : τ₁) (st2 : τ₂) (ns : σ) :
    net.call obs st1 ns = net.call obs st2 ns := rfl

/-- C9: every successfully constructed `ActorDistributionNetwork` has an
empty recurrent-state specification: construction always passes the empty
tuple as `state_spec`, for every observation/action specification. -/
theorem c9_state_spec_empty (observation_spec : Nest TensorSpec)
    (action_spec : Nest BoundedTensorSpec) (fc : List Nat) (conv : List (Nat × Nat × Nat))
    (dnet cnet : BoundedTensorSpec → ProjectionNetwork) (net : ActorDistributionNetwork)
    (h : ActorDistributionNetwork.init observation_spec action_spec fc conv dnet cnet
      = Except.ok net) :
    net.state_spec = Nest.node NestList.nil := by
  by_cases hlen : (Nest.flatten observation_spec).length > 1
  · rw [ActorDistributionNetwork.init_error observation_spec action_spec fc conv dnet cnet hlen]
      at h
    exact absurd h (by simp)
  · rw [ActorDistributionNetwork.init_eq observation_spec action_spec fc conv dnet cnet hlen]
      at h
    injection h with h
    subst h
    rfl

theorem c9_witness : sampleNet.state_spec = Nest.node NestList.nil :=
  c9_state_spec_empty sampleObsSpec sampleActionSpec [5] [] sdnet scnet sampleNet rfl

/-- C8: forward evaluation flattens the observation structure, takes its
single (first) tensor, casts it to float32, collapses the outer-rank
leading dimensions into one batch dimension, applies every
feature-extraction layer in sequence — a left fold over the layer stack in
stack order — to the squashed input, restores the leading dimensions, and
hands the result to the projection networks. -/
theorem c8_forward_pipeline {τ σ : Type} (net : ActorDistributionNetwork)
    (observations : Nest Tensor) (st : τ) (ns : σ) (r : Nat) (obs0 : Tensor) (tl : List Tensor)
    (hr : get_outer_rank observations net.observation_spec = some r)
    (hobs : Nest.flatten observations = obs0 :: tl) :
    net.call observations st ns
      = Option.map (fun packed => (packed, ns))
          (pack_sequence_as net.action_spec
            (net.projection_networks.map (fun projection =>
              projection.call
                (((BatchSquash.mk' r).flatten (obs0.cast .float32)).1.unflatten
                  (net.mlp_layers.foldl (fun states layer => layer states)
                    (((BatchSquash.mk' r).flatten (obs0.cast .float32)).2)))
                r))) := by
  have ho : (Nest.flatten observations).head? = some obs0 := by rw [hobs]; rfl
  cases hp : pack_sequence_as net.action_spec
      (net.projection_networks.map (fun projection =>
        projection.call (net.hiddenFeatures obs0 r) r)) with
  | none =>
      simp [ActorDistributionNetwork.call, hr, ho, hp, ActorDistributionNetwork.hiddenFeatures]
      simp [ActorDistributionNetwork.hiddenFeatures] at hp
      simp [hp]
  | some packed =>
      simp [ActorDistributionNetwork.call, hr, ho, hp, ActorDistributionNetwork.hiddenFeatures]
      simp [ActorDistributionNetwork.hiddenFeatures] at hp
      simp [hp]

/-- C10: the construction-time validation is one-sided: an observation
specification whose flattened form is empty is accepted by the
constructor, because the check rejects only flattened counts strictly
greater than one; yet a forward call on such a network is undefined — with
no observation tensor to compare against the spec and to index, the call
has no defined result (`none`). -/
theorem c10_empty_observation_accepted (observation_spec : Nest TensorSpec)
    (action_spec : Nest BoundedTensorSpec) (fc : List Nat) (conv : List (Nat × Nat × Nat))
    (dnet cnet : BoundedTensorSpec → ProjectionNetwork)
    (h : Nest.flatten observation_spec = ([] : List TensorSpec)) :
    (∃ net, ActorDistributionNetwork.init observation_spec action_spec fc conv dnet cnet
        = Except.ok net)
      ∧ ∀ (net : ActorDistributionNetwork),
          ActorDistributionNetwork.init observation_spec action_spec fc conv dnet cnet
            = Except.ok net →
          ∀ (τ σ : Type) (obs : Nest Tensor) (st : τ) (ns : σ),
            Nest.flatten obs = [] → net.call obs st ns = none := by
  have hlen : ¬ (Nest.flatten observation_spec).length > 1 := by
    rw [h]
    decide
  constructor
  · exact ⟨_, ActorDistributionNetwork.init_eq observation_spec action_spec fc conv
      dnet cnet hlen⟩
  · intro net hinit τ σ obs st ns hobs
    have hhead : (Nest.flatten obs).head? = none := by
      rw [hobs]
      rfl
    simp [ActorDistributionNetwork.call, get_outer_rank, hhead]

theorem c8_witness :
    get_outer_rank sampleObs sampleNet.observation_spec = some 1
      ∧ Nest.flatten sampleObs = Tensor.mk [4, 3] .float32 :: []
      ∧ sampleNet.call sampleObs (0 : Nat) ()
        = Option.map (fun packed => (packed, ()))
            (pack_sequence_as sampleNet.action_spec
              (sampleNet.projection_networks.map (fun projection =>
                projection.call
                  (((BatchSquash.mk' 1).flatten (Tensor.cast ⟨[4, 3], .float32⟩ .float32)).1.unflatten
                    (sampleNet.mlp_layers.foldl (fun states layer => layer states)
                      (((BatchSquash.mk' 1).flatten
                        (Tensor.cast ⟨[4, 3], .float32⟩ .float32)).2)))
                  1))) :=
  ⟨rfl, rfl, c8_forward_pipeline sampleNet sampleObs (0 : Nat) () 1 ⟨[4, 3], .float32⟩ [] rfl rfl⟩

theorem c10_witness :
    Nest.flatten (Nest.node (α := TensorSpec) .nil) = ([] : List TensorSpec)
      ∧ ((∃ net, ActorDistributionNetwork.init (Nest.node .nil) sampleActionSpec [5] [] sdnet scnet
            = Except.ok net)
        ∧ ∀ (net : ActorDistributionNetwork),
            ActorDistributionNetwork.init (Nest.node .nil) sampleActionSpec [5] [] sdnet scnet
              = Except.ok net →
            ∀ (τ σ : Type) (obs : Nest Tensor) (st : τ) (ns : σ),
              Nest.flatten obs = [] → net.call obs st ns = none) :=
  ⟨rfl, c10_empty_observation_accepted (Nest.node .nil) sampleActionSpec [5] [] sdnet scnet rfl⟩
